import Mathlib

/-!
Verification of the MovieWebApp data layer (data_manager.py, models.py) and the
movie-input validator of the presentation layer (app.py), as a shallow embedding.

The Record Store (SQLAlchemy over SQLite) is modelled as an in-memory state:
a list of user rows and a list of movie rows kept in insertion (rowid) order,
plus an auto-increment counter for movie ids.  Primary-key lookup
(Movie.query.get) is first-match-by-id, filter_by is List.filter, and a commit
of a mutated row rewrites that row in place.  The store itself is modelled as
non-failing: store-level failures (connectivity loss, constraint violations)
are outside the embedded state, so every embedded operation is total.

The OMDb lookup (DataManager.fetch_movie_data) performs network I/O; its
environment is modelled by a ProviderResult value: either a network-level
failure (unreachable, timeout, non-2xx via raise_for_status, JSON error -- all
collapse to the same caught-exception path returning None) or a structured
response document whose fields are optional strings, exactly the fields the
code reads.

Python's int(...) and float(...) on strings are embedded as total functions
returning Option: pyParseInt and pyParseFloat.  They model stripping of
surrounding whitespace, an optional sign, ASCII digit runs with single
underscores between digits, and for float also a fractional part, a decimal
exponent and the case-insensitive words inf, infinity and nan.  Finite float
values are represented exactly as rationals (the binary rounding Python
performs is irrelevant to every property below, which only ever asks whether a
field is absent or which string was chosen).
-/

/-- The whitespace characters Python strips around int and float literals and
in str.strip(): space, tab, newline, carriage return, vertical tab, form
feed. -/
def isPySpace (c : Char) : Bool :=
  c = ' ' ∨ c = '\t' ∨ c = '\n' ∨ c = '\r' ∨ c = '\x0b' ∨ c = '\x0c'

/-- Remove leading and trailing whitespace from a character list. -/
def stripChars (cs : List Char) : List Char :=
  ((cs.dropWhile isPySpace).reverse.dropWhile isPySpace).reverse

/-- Python str.strip() with no argument. -/
def pyStrip (s : String) : String :=
  String.mk (stripChars s.toList)

/-- Value of a list of ASCII digit characters read in base 10. -/
def digitsVal (cs : List Char) : Nat :=
  cs.foldl (fun a c => 10 * a + (c.toNat - 48)) 0

/-- Continuation of a digit run after an initial digit: zero or more digits,
each optionally preceded by a single underscore.  Returns the digits with
underscores removed, or none if the character list is not such a run. -/
def digitRunTail : List Char → Option (List Char)
  | [] => some []
  | '_' :: rest =>
    match rest with
    | [] => none
    | c :: rest2 =>
      if c.isDigit then (digitRunTail rest2).map (fun ds => c :: ds) else none
  | c :: rest =>
    if c.isDigit then (digitRunTail rest).map (fun ds => c :: ds) else none

/-- A full digit run: a digit followed by digitRunTail.  This is the grammar
Python requires of each digit group in an int or float literal. -/
def digitRun : List Char → Option (List Char)
  | [] => none
  | c :: rest =>
    if c.isDigit then (digitRunTail rest).map (fun ds => c :: ds) else none

/-- A possibly-empty digit run (used for the integer and fractional parts of a
float literal, either of which may be empty but not both). -/
def optDigitRun (cs : List Char) : Option (List Char) :=
  match cs with
  | [] => some []
  | _ => digitRun cs

/-- Sign and digit run, as accepted by Python int(...) after stripping, and by
the exponent part of a float literal. -/
def pyParseIntCore (cs : List Char) : Option Int :=
  match cs with
  | '+' :: rest => (digitRun rest).map (fun ds => (digitsVal ds : Int))
  | '-' :: rest => (digitRun rest).map (fun ds => -(digitsVal ds : Int))
  | _ => (digitRun cs).map (fun ds => (digitsVal ds : Int))

/-- Embedding of Python int(s) for a string s: some n on success, none where
Python raises ValueError. -/
def pyParseInt (s : String) : Option Int :=
  pyParseIntCore (stripChars s.toList)

/-- A Python float value as far as this code can observe it: a finite value
(represented exactly as a rational), a signed infinity, or nan. -/
inductive PyFloat where
  | finite (q : Rat)
  | inf (neg : Bool)
  | nan
deriving DecidableEq

/-- Split a character list at the first character satisfying p: the prefix
before it, and the suffix after it (none if no such character occurs). -/
def splitAtFirst (p : Char → Bool) : List Char → List Char × Option (List Char)
  | [] => ([], none)
  | c :: rest =>
    if p c then ([], some rest)
    else
      let s := splitAtFirst p rest
      (c :: s.1, s.2)

/-- The mantissa of a float literal: integer digits, an optional dot, and
fractional digits; at least one digit overall.  Returns the two digit groups
(underscores removed) or none if malformed. -/
def parseMantissa (cs : List Char) : Option (List Char × List Char) :=
  let s := splitAtFirst (fun c => c = '.') cs
  match s.2 with
  | none => (digitRun s.1).map (fun ds => (ds, []))
  | some fp =>
    match optDigitRun s.1, optDigitRun fp with
    | some ids, some fds =>
      if ids.isEmpty ∧ fds.isEmpty then none else some (ids, fds)
    | _, _ => none

/-- Exact rational value of a decimal literal with integer digits ids,
fractional digits fds and decimal exponent ex. -/
def decimalValue (ids fds : List Char) (ex : Int) : Rat :=
  let m : Int := (digitsVal (ids ++ fds) : Int)
  let e : Int := ex - (fds.length : Int)
  if 0 ≤ e then ((m * 10 ^ e.toNat : Int) : Rat)
  else (m : Rat) / ((10 ^ (-e).toNat : Nat) : Rat)

/-- Float literal body after stripping: optional sign, then the words inf,
infinity or nan (case-insensitive) or a decimal mantissa with an optional
exponent part introduced by e or E. -/
def pyParseFloatCore (cs : List Char) : Option PyFloat :=
  let sb : Bool × List Char :=
    match cs with
    | '+' :: rest => (false, rest)
    | '-' :: rest => (true, rest)
    | _ => (false, cs)
  let low := sb.2.map Char.toLower
  if low = ['i', 'n', 'f'] ∨ low = ['i', 'n', 'f', 'i', 'n', 'i', 't', 'y'] then
    some (PyFloat.inf sb.1)
  else if low = ['n', 'a', 'n'] then
    some PyFloat.nan
  else
    let s := splitAtFirst (fun c => c = 'e' ∨ c = 'E') sb.2
    match parseMantissa s.1 with
    | none => none
    | some ids_fds =>
      let q :=
        match s.2 with
        | none => some (decimalValue ids_fds.1 ids_fds.2 0)
        | some ecs =>
          match pyParseIntCore ecs with
          | none => none
          | some ex => some (decimalValue ids_fds.1 ids_fds.2 ex)
      match q with
      | none => none
      | some v =>
        some (PyFloat.finite (if sb.1 then -v else v))

/-- Embedding of Python float(s) for a string s: some v on success, none where
Python raises ValueError. -/
def pyParseFloat (s : String) : Option PyFloat :=
  pyParseFloatCore (stripChars s.toList)

/-- A User row (models.py): integer primary key and a name. -/
structure UserRec where
  id : Nat
  name : String
deriving DecidableEq

/-- A Movie row (models.py): integer primary key, non-null title, nullable
year, genre and rating, and a non-null foreign key to the owning user. -/
structure MovieRec where
  id : Nat
  title : String
  year : Option Int
  genre : Option String
  rating : Option PyFloat
  user_id : Nat
deriving DecidableEq

/-- The record store: user rows and movie rows in insertion (rowid) order,
and the auto-increment id the store would assign to the next movie row. -/
structure DB where
  users : List UserRec
  movies : List MovieRec
  nextMovieId : Nat
deriving DecidableEq

/-- The DataManager configuration: the OMDb API key as read from the
environment (none when the variable is unset). -/
structure DataManager where
  omdb_api_key : Option String
deriving DecidableEq

/-- Python truthiness of the api-key attribute: None and the empty string are
falsy, every other string is truthy. -/
def keyTruthy : Option String → Bool
  | none => false
  | some s => !s.isEmpty

/-- The OMDb response document, restricted to the fields the code reads.  Each
field is an optional string: .get on the parsed JSON dict. -/
structure OmdbDoc where
  responseField : Option String
  titleField : Option String
  yearField : Option String
  imdbRatingField : Option String
  genreField : Option String
deriving DecidableEq

/-- One interaction with the OMDb endpoint: either a network-level failure
(connection error, timeout, non-2xx status raised by raise_for_status, or any
other exception -- the code catches them all identically) or a response
document. -/
inductive ProviderResult where
  | netError : ProviderResult
  | response : OmdbDoc → ProviderResult
deriving DecidableEq

/-- DataManager.fetch_movie_data: returns None when the api key is falsy, when
the request fails, or when the document's Response field is not the string
True; otherwise returns the document. -/
def fetch_movie_data (dm : DataManager) (provider : ProviderResult) : Option OmdbDoc :=
  if keyTruthy dm.omdb_api_key then
    match provider with
    | ProviderResult.netError => none
    | ProviderResult.response d =>
      if d.responseField = some ("True") then some d else none
  else
    none

/-- The Year normalization in DataManager.add_movie: parse only when the field
is present, non-empty (Python truthiness) and not the sentinel; a parse
failure is caught and coerced to None. -/
def normalizeYear (yf : Option String) : Option Int :=
  match yf with
  | some y => if y ≠ "" ∧ y ≠ "N/A" then pyParseInt y else none
  | none => none

/-- The imdbRating normalization in DataManager.add_movie, under the same
tolerant rule as the year but parsing a float. -/
def normalizeRating (rf : Option String) : Option PyFloat :=
  match rf with
  | some r => if r ≠ "" ∧ r ≠ "N/A" then pyParseFloat r else none
  | none => none

/-- The Genre normalization in DataManager.add_movie: pass the string through,
mapping the sentinel to None. -/
def normalizeGenre (gf : Option String) : Option String :=
  match gf with
  | some g => if g = "N/A" then none else some g
  | none => none

/-- DataManager.add_movie: fetch OMDb data for the title; on no data build a
movie row carrying only the given title and owner, otherwise build a row from
the normalized fields, preferring the document's Title over the search string;
then persist the row and return it. -/
def add_movie (dm : DataManager) (provider : ProviderResult) (title : String)
    (user_id : Nat) (db : DB) : MovieRec × DB :=
  let new_movie : MovieRec :=
    match fetch_movie_data dm provider with
    | none =>
      { id := db.nextMovieId, title := title, year := none, genre := none,
        rating := none, user_id := user_id }
    | some d =>
      { id := db.nextMovieId,
        title := d.titleField.getD title,
        year := normalizeYear d.yearField,
        genre := normalizeGenre d.genreField,
        rating := normalizeRating d.imdbRatingField,
        user_id := user_id }
  (new_movie,
   { db with movies := db.movies ++ [new_movie],
             nextMovieId := db.nextMovieId + 1 })

/-- DataManager.get_movies: Movie.query.filter_by(user_id=user_id).all() over
the store, in stored (creation) order. -/
def get_movies (user_id : Nat) (db : DB) : List MovieRec :=
  db.movies.filter (fun m => m.user_id == user_id)

/-- Movie.query.get(movie_id): primary-key lookup, the first (in a well-formed
store: the only) row with the given id. -/
def getById : List MovieRec → Nat → Option MovieRec
  | [], _ => none
  | m :: ms, mid => if m.id = mid then some m else getById ms mid

/-- In-place title assignment followed by commit: rewrite the row with the
given id (the first such row), leaving every other row unchanged. -/
def setTitleFirst : List MovieRec → Nat → String → List MovieRec
  | [], _, _ => []
  | m :: ms, mid, t =>
    if m.id = mid then { m with title := t } :: ms
    else m :: setTitleFirst ms mid t

/-- db.session.delete followed by commit: remove the row with the given id
(the first such row), leaving every other row unchanged. -/
def removeFirstById : List MovieRec → Nat → List MovieRec
  | [], _ => []
  | m :: ms, mid =>
    if m.id = mid then ms else m :: removeFirstById ms mid

/-- DataManager.update_movie: look the movie up by id; if found, set its title
and commit, returning the updated row; otherwise return None with no store
mutation. -/
def update_movie (movie_id : Nat) (new_title : String) (db : DB) :
    Option MovieRec × DB :=
  match getById db.movies movie_id with
  | some m =>
    (some { m with title := new_title },
     { db with movies := setTitleFirst db.movies movie_id new_title })
  | none => (none, db)

/-- DataManager.delete_movie: look the movie up by id; if found, delete it and
commit, returning True; otherwise return False with no store mutation. -/
def delete_movie (movie_id : Nat) (db : DB) : Bool × DB :=
  match getById db.movies movie_id with
  | some _ =>
    (true, { db with movies := removeFirstById db.movies movie_id })
  | none => (false, db)

/-- validate_movie_input from app.py: the presentation-layer check run before
add_movie is called.  Rejects an empty title, a whitespace-only title and an
over-long title; returns the stripped title otherwise. -/
def validate_movie_input (title : String) : Except String String :=
  if title = "" then Except.error ("Movie title cannot be empty")
  else if (pyStrip title).length < 1 then
    Except.error ("Movie title must be at least 1 character long")
  else if (pyStrip title).length > 200 then
    Except.error ("Movie title cannot be longer than 200 characters")
  else Except.ok (pyStrip title)

/-! Helper lemmas about the store operations, shared across the claims. -/

/-- Primary-key lookup misses when no row carries the id. -/
theorem getById_eq_none (l : List MovieRec) (mid : Nat)
    (h : ∀ m ∈ l, m.id ≠ mid) : getById l mid = none := by
  induction l with
  | nil => rfl
  | cons a t ih =>
    have ha : a.id ≠ mid := h a (List.mem_cons_self a t)
    simp only [getById, if_neg ha]
    exact ih (fun m hm => h m (List.mem_cons_of_mem a hm))

/-- Primary-key lookup finds the row with the id when no earlier row has it. -/
theorem getById_append (l₁ l₂ : List MovieRec) (m : MovieRec) (mid : Nat)
    (h₁ : ∀ x ∈ l₁, x.id ≠ mid) (hm : m.id = mid) :
    getById (l₁ ++ m :: l₂) mid = some m := by
  induction l₁ with
  | nil => simp [getById, hm]
  | cons a t ih =>
    have ha : a.id ≠ mid := h₁ a (List.mem_cons_self a t)
    simp only [List.cons_append, getById, if_neg ha]
    exact ih (fun x hx => h₁ x (List.mem_cons_of_mem a hx))

/-- Rewriting the title of the row with the id touches no other row. -/
theorem setTitleFirst_append (l₁ l₂ : List MovieRec) (m : MovieRec) (mid : Nat)
    (s : String) (h₁ : ∀ x ∈ l₁, x.id ≠ mid) (hm : m.id = mid) :
    setTitleFirst (l₁ ++ m :: l₂) mid s = l₁ ++ { m with title := s } :: l₂ := by
  induction l₁ with
  | nil => simp [setTitleFirst, hm]
  | cons a t ih =>
    have ha : a.id ≠ mid := h₁ a (List.mem_cons_self a t)
    simp only [List.cons_append, setTitleFirst, if_neg ha]
    exact congrArg (a :: ·) (ih (fun x hx => h₁ x (List.mem_cons_of_mem a hx)))

/-- Removing the row with the id touches no other row. -/
theorem removeFirstById_append (l₁ l₂ : List MovieRec) (m : MovieRec) (mid : Nat)
    (h₁ : ∀ x ∈ l₁, x.id ≠ mid) (hm : m.id = mid) :
    removeFirstById (l₁ ++ m :: l₂) mid = l₁ ++ l₂ := by
  induction l₁ with
  | nil => simp [removeFirstById, hm]
  | cons a t ih =>
    have ha : a.id ≠ mid := h₁ a (List.mem_cons_self a t)
    simp only [List.cons_append, removeFirstById, if_neg ha]
    exact congrArg (a :: ·) (ih (fun x hx => h₁ x (List.mem_cons_of_mem a hx)))

/-- When the lookup succeeds, the constructed row is exactly the normalized
fields of the returned document. -/
theorem add_movie_found (dm : DataManager) (provider : ProviderResult)
    (d : OmdbDoc) (title : String) (uid : Nat) (db : DB)
    (hfetch : fetch_movie_data dm provider = some d) :
    (add_movie dm provider title uid db).1
      = { id := db.nextMovieId, title := d.titleField.getD title,
          year := normalizeYear d.yearField,
          genre := normalizeGenre d.genreField,
          rating := normalizeRating d.imdbRatingField,
          user_id := uid } := by
  simp [add_movie, hfetch]

/-- Claim C1: for every non-empty title and owner id, when the provider lookup
fails (unreachable, timeout, non-2xx, not-found indicator, or any error --
all the cases in which fetch_movie_data returns none), add_movie still
returns and persists a Movie whose title is exactly the given title and whose
year, genre and rating are all absent; no provider error surfaces (add_movie
is a total function of the provider outcome). -/
theorem addMovie_provider_failure_title_only
    (dm : DataManager) (provider : ProviderResult) (title : String)
    (uid : Nat) (db : DB)
    (htitle : title ≠ "")
    (hfail : fetch_movie_data dm provider = none) :
    (add_movie dm provider title uid db).1.title = title ∧
    (add_movie dm provider title uid db).1.year = none ∧
    (add_movie dm provider title uid db).1.genre = none ∧
    (add_movie dm provider title uid db).1.rating = none ∧
    (add_movie dm provider title uid db).2.movies
      = db.movies ++ [(add_movie dm provider title uid db).1] := by
  refine ⟨?_, ?_, ?_, ?_, rfl⟩ <;> simp [add_movie, hfail]

/-- Witness for C1 at a concrete input: no api key configured, network error,
title Unknown Film XYZ123, one user in the store. -/
theorem addMovie_provider_failure_title_only_witness :
    (add_movie ⟨none⟩ ProviderResult.netError ("Unknown Film XYZ123") 1
        ⟨[⟨1, ("Ada")⟩], [], 1⟩).1.title = ("Unknown Film XYZ123") ∧
    (add_movie ⟨none⟩ ProviderResult.netError ("Unknown Film XYZ123") 1
        ⟨[⟨1, ("Ada")⟩], [], 1⟩).1.year = none ∧
    (add_movie ⟨none⟩ ProviderResult.netError ("Unknown Film XYZ123") 1
        ⟨[⟨1, ("Ada")⟩], [], 1⟩).1.genre = none ∧
    (add_movie ⟨none⟩ ProviderResult.netError ("Unknown Film XYZ123") 1
        ⟨[⟨1, ("Ada")⟩], [], 1⟩).1.rating = none ∧
    (add_movie ⟨none⟩ ProviderResult.netError ("Unknown Film XYZ123") 1
        ⟨[⟨1, ("Ada")⟩], [], 1⟩).2.movies
      = [] ++ [(add_movie ⟨none⟩ ProviderResult.netError ("Unknown Film XYZ123") 1
        ⟨[⟨1, ("Ada")⟩], [], 1⟩).1] :=
  addMovie_provider_failure_title_only ⟨none⟩ ProviderResult.netError
    ("Unknown Film XYZ123") 1 ⟨[⟨1, ("Ada")⟩], [], 1⟩ (by decide) rfl

/-- Claim C2: for every provider response carrying the not-applicable sentinel
in the Year, imdbRating or Genre field, the Movie built by add_movie stores
that field as absent, never as the literal sentinel string. -/
theorem addMovie_sentinel_absent
    (dm : DataManager) (provider : ProviderResult) (d : OmdbDoc)
    (title : String) (uid : Nat) (db : DB)
    (hfetch : fetch_movie_data dm provider = some d) :
    (d.yearField = some ("N/A") →
      (add_movie dm provider title uid db).1.year = none) ∧
    (d.imdbRatingField = some ("N/A") →
      (add_movie dm provider title uid db).1.rating = none) ∧
    (d.genreField = some ("N/A") →
      (add_movie dm provider title uid db).1.genre = none) := by
  have h := add_movie_found dm provider d title uid db hfetch
  refine ⟨fun hy => ?_, fun hr => ?_, fun hg => ?_⟩ <;> rw [h]
  · show normalizeYear d.yearField = none
    rw [hy]; decide
  · show normalizeRating d.imdbRatingField = none
    rw [hr]; decide
  · show normalizeGenre d.genreField = none
    rw [hg]; decide

/-- Witness for C2 at a concrete input: a found response whose Year,
imdbRating and Genre all carry the sentinel. -/
theorem addMovie_sentinel_absent_witness :
    (add_movie ⟨some ("k")⟩
        (ProviderResult.response
          ⟨some ("True"), some ("MX"), some ("N/A"), some ("N/A"), some ("N/A")⟩)
        ("X") 1 ⟨[], [], 1⟩).1.year = none ∧
    (add_movie ⟨some ("k")⟩
        (ProviderResult.response
          ⟨some ("True"), some ("MX"), some ("N/A"), some ("N/A"), some ("N/A")⟩)
        ("X") 1 ⟨[], [], 1⟩).1.rating = none ∧
    (add_movie ⟨some ("k")⟩
        (ProviderResult.response
          ⟨some ("True"), some ("MX"), some ("N/A"), some ("N/A"), some ("N/A")⟩)
        ("X") 1 ⟨[], [], 1⟩).1.genre = none := by
  have h := addMovie_sentinel_absent ⟨some ("k")⟩
    (ProviderResult.response
      ⟨some ("True"), some ("MX"), some ("N/A"), some ("N/A"), some ("N/A")⟩)
    ⟨some ("True"), some ("MX"), some ("N/A"), some ("N/A"), some ("N/A")⟩
    ("X") 1 ⟨[], [], 1⟩ rfl
  exact ⟨h.1 rfl, h.2.1 rfl, h.2.2 rfl⟩

/-- Claim C3: for every provider response whose Year is a string the embedded
Python int parser rejects, add_movie stores the year as absent and no parse
exception propagates (the operation stays total); the same tolerant rule
holds for an imdbRating string the float parser rejects. -/
theorem addMovie_unparsable_absent
    (dm : DataManager) (provider : ProviderResult) (d : OmdbDoc)
    (title : String) (uid : Nat) (db : DB)
    (hfetch : fetch_movie_data dm provider = some d) :
    (∀ ys, d.yearField = some ys → pyParseInt ys = none →
      (add_movie dm provider title uid db).1.year = none) ∧
    (∀ rs, d.imdbRatingField = some rs → pyParseFloat rs = none →
      (add_movie dm provider title uid db).1.rating = none) := by
  have h := add_movie_found dm provider d title uid db hfetch
  refine ⟨fun ys hy hp => ?_, fun rs hr hp => ?_⟩ <;> rw [h]
  · show normalizeYear d.yearField = none
    rw [hy]
    simp [normalizeYear, hp]
  · show normalizeRating d.imdbRatingField = none
    rw [hr]
    simp [normalizeRating, hp]

/-- Witness for C3 at a concrete input: a found response whose Year and
imdbRating are non-numeric strings. -/
theorem addMovie_unparsable_absent_witness :
    pyParseInt ("Not A Year") = none ∧
    pyParseFloat ("eight point eight") = none ∧
    (add_movie ⟨some ("k")⟩
        (ProviderResult.response
          ⟨some ("True"), some ("MX"), some ("Not A Year"),
           some ("eight point eight"), none⟩)
        ("X") 1 ⟨[], [], 1⟩).1.year = none ∧
    (add_movie ⟨some ("k")⟩
        (ProviderResult.response
          ⟨some ("True"), some ("MX"), some ("Not A Year"),
           some ("eight point eight"), none⟩)
        ("X") 1 ⟨[], [], 1⟩).1.rating = none := by
  have h := addMovie_unparsable_absent ⟨some ("k")⟩
    (ProviderResult.response
      ⟨some ("True"), some ("MX"), some ("Not A Year"),
       some ("eight point eight"), none⟩)
    ⟨some ("True"), some ("MX"), some ("Not A Year"),
     some ("eight point eight"), none⟩
    ("X") 1 ⟨[], [], 1⟩ rfl
  have hpi : pyParseInt ("Not A Year") = none := by decide
  have hpf : pyParseFloat ("eight point eight") = none := by decide
  exact ⟨hpi, hpf, h.1 ("Not A Year") rfl hpi, h.2 ("eight point eight") rfl hpf⟩

/-- Claim C9: for every successful provider response, the persisted Movie
carries the provider's canonical Title whenever the response supplies one,
and falls back to the caller's search string otherwise. -/
theorem addMovie_canonical_title
    (dm : DataManager) (provider : ProviderResult) (d : OmdbDoc)
    (title : String) (uid : Nat) (db : DB)
    (hfetch : fetch_movie_data dm provider = some d) :
    (add_movie dm provider title uid db).1.title = d.titleField.getD title ∧
    (∀ t, d.titleField = some t →
      (add_movie dm provider title uid db).1.title = t) ∧
    (d.titleField = none →
      (add_movie dm provider title uid db).1.title = title) := by
  have h := add_movie_found dm provider d title uid db hfetch
  rw [h]
  refine ⟨rfl, ?_, ?_⟩
  · intro t ht
    simp [ht]
  · intro hn
    simp [hn]

/-- Witness for C9 at a concrete input: the provider returns the canonical
title Inception for the search string incepcion. -/
theorem addMovie_canonical_title_witness :
    (add_movie ⟨some ("k")⟩
        (ProviderResult.response
          ⟨some ("True"), some ("Inception"), some ("2010"), some ("8.8"),
           some ("Action, Sci-Fi")⟩)
        ("incepcion") 1 ⟨[⟨1, ("Ada")⟩], [], 1⟩).1.title = ("Inception") := by
  have h := addMovie_canonical_title ⟨some ("k")⟩
    (ProviderResult.response
      ⟨some ("True"), some ("Inception"), some ("2010"), some ("8.8"),
       some ("Action, Sci-Fi")⟩)
    ⟨some ("True"), some ("Inception"), some ("2010"), some ("8.8"),
     some ("Action, Sci-Fi")⟩
    ("incepcion") 1 ⟨[⟨1, ("Ada")⟩], [], 1⟩ rfl
  exact h.2.1 ("Inception") rfl

/-- Counterexample to claim C4 as stated: at the data layer, calling
add_movie with the empty title (provider lookup failing) does persist a Movie
-- one whose title is the empty string -- and the call succeeds, so the empty
title is not rejected as a failure there. -/
theorem addMovie_empty_title_persists_cex :
    (add_movie ⟨none⟩ ProviderResult.netError ("") 1
        ⟨[⟨1, ("Ada")⟩], [], 1⟩).2.movies
      = [⟨1, (""), none, none, none, 1⟩] ∧
    (add_movie ⟨none⟩ ProviderResult.netError ("") 1
        ⟨[⟨1, ("Ada")⟩], [], 1⟩).2.movies.length = 1 := by
  exact ⟨rfl, rfl⟩

/-- Claim C4 as amended: the data-layer add_movie never fails -- for every
provider outcome and every title (the empty title included) it persists
exactly one Movie row and touches no user row, so with the store modelled as
non-failing only store-level failures could make it fail; the rejection of an
empty title happens one layer up, in the presentation-layer validator
validate_movie_input, which errors on the empty title before add_movie is
ever called. -/
theorem addMovie_fails_only_for_store_amended :
    (∀ (dm : DataManager) (provider : ProviderResult) (title : String)
        (uid : Nat) (db : DB),
      (add_movie dm provider title uid db).2.movies
        = db.movies ++ [(add_movie dm provider title uid db).1] ∧
      (add_movie dm provider title uid db).2.users = db.users) ∧
    validate_movie_input ("") = Except.error ("Movie title cannot be empty") :=
  ⟨fun _ _ _ _ _ => ⟨rfl, rfl⟩, rfl⟩

/-- Claim C5: for every movie id no row carries, update_movie returns the
not-found signal (None) and leaves the store completely unchanged. -/
theorem updateMovie_not_found_no_mutation
    (movie_id : Nat) (new_title : String) (db : DB)
    (habs : ∀ m ∈ db.movies, m.id ≠ movie_id) :
    update_movie movie_id new_title db = (none, db) := by
  have h : getById db.movies movie_id = none := getById_eq_none _ _ habs
  simp [update_movie, h]

/-- Witness for C5 at a concrete input: one movie with id 1 in the store,
update requested for id 2. -/
theorem updateMovie_not_found_no_mutation_witness :
    update_movie 2 ("X")
        ⟨[⟨1, ("Ada")⟩], [⟨1, ("Alien"), none, none, none, 1⟩], 2⟩
      = (none, ⟨[⟨1, ("Ada")⟩], [⟨1, ("Alien"), none, none, none, 1⟩], 2⟩) :=
  updateMovie_not_found_no_mutation 2 ("X")
    ⟨[⟨1, ("Ada")⟩], [⟨1, ("Alien"), none, none, none, 1⟩], 2⟩ (by decide)

/-- Claim C6: for every existing movie id, delete_movie removes exactly that
one row (all rows before and after it survive in order, user rows untouched)
and returns success; a second call on the same id returns the not-found
signal and changes nothing. -/
theorem deleteMovie_existing_then_not_found
    (db : DB) (mid : Nat) (l₁ l₂ : List MovieRec) (m : MovieRec)
    (hsplit : db.movies = l₁ ++ m :: l₂)
    (hm : m.id = mid)
    (h₁ : ∀ x ∈ l₁, x.id ≠ mid)
    (h₂ : ∀ x ∈ l₂, x.id ≠ mid) :
    delete_movie mid db = (true, { db with movies := l₁ ++ l₂ }) ∧
    delete_movie mid { db with movies := l₁ ++ l₂ }
      = (false, { db with movies := l₁ ++ l₂ }) := by
  have hget : getById db.movies mid = some m := by
    rw [hsplit]; exact getById_append l₁ l₂ m mid h₁ hm
  have hrem : removeFirstById db.movies mid = l₁ ++ l₂ := by
    rw [hsplit]; exact removeFirstById_append l₁ l₂ m mid h₁ hm
  have hnone : getById (l₁ ++ l₂) mid = none := by
    refine getById_eq_none _ _ (fun x hx => ?_)
    rcases List.mem_append.mp hx with h | h
    · exact h₁ x h
    · exact h₂ x h
  constructor
  · simp [delete_movie, hget, hrem]
  · simp [delete_movie, hnone]

/-- Witness for C6 at a concrete input: three movies with ids 1, 2, 3;
deleting id 2 keeps ids 1 and 3 in order, and a second delete of id 2 is a
no-op returning false. -/
theorem deleteMovie_existing_then_not_found_witness :
    delete_movie 2
        ⟨[⟨1, ("Ada")⟩],
         [⟨1, ("Alien"), none, none, none, 1⟩,
          ⟨2, ("Brazil"), none, none, none, 1⟩,
          ⟨3, ("Contact"), none, none, none, 1⟩], 4⟩
      = (true,
         ⟨[⟨1, ("Ada")⟩],
          [⟨1, ("Alien"), none, none, none, 1⟩,
           ⟨3, ("Contact"), none, none, none, 1⟩], 4⟩) ∧
    delete_movie 2
        ⟨[⟨1, ("Ada")⟩],
         [⟨1, ("Alien"), none, none, none, 1⟩,
          ⟨3, ("Contact"), none, none, none, 1⟩], 4⟩
      = (false,
         ⟨[⟨1, ("Ada")⟩],
          [⟨1, ("Alien"), none, none, none, 1⟩,
           ⟨3, ("Contact"), none, none, none, 1⟩], 4⟩) :=
  deleteMovie_existing_then_not_found
    ⟨[⟨1, ("Ada")⟩],
     [⟨1, ("Alien"), none, none, none, 1⟩,
      ⟨2, ("Brazil"), none, none, none, 1⟩,
      ⟨3, ("Contact"), none, none, none, 1⟩], 4⟩
    2
    [⟨1, ("Alien"), none, none, none, 1⟩]
    [⟨3, ("Contact"), none, none, none, 1⟩]
    ⟨2, ("Brazil"), none, none, none, 1⟩
    rfl rfl (by decide) (by decide)

/-- Claim C7: get_movies returns exactly the movies whose owner reference
equals the given id, as a subsequence of the store's creation-ordered list
(hence in creation order), and returns the empty list when the owner owns no
movies or is unknown. -/
theorem getMovies_exact_owner_creation_order (uid : Nat) (db : DB) :
    (∀ m : MovieRec, m ∈ get_movies uid db ↔ m ∈ db.movies ∧ m.user_id = uid) ∧
    List.Sublist (get_movies uid db) db.movies ∧
    ((∀ m ∈ db.movies, m.user_id ≠ uid) → get_movies uid db = []) := by
  refine ⟨fun m => ?_, List.filter_sublist db.movies, fun h => ?_⟩
  · simp [get_movies]
  · refine List.filter_eq_nil_iff.mpr (fun m hm => ?_)
    simpa using h m hm

/-- Claim C8: with no truthy api key configured, every add_movie call is
literally equal to the call in which the provider answered with a not-found
document, and it persists a title-only movie; the absent key never makes the
operation fail (the function stays total). -/
theorem addMovie_no_key_behaves_as_not_found
    (dm : DataManager) (provider : ProviderResult) (title : String)
    (uid : Nat) (db : DB)
    (hkey : keyTruthy dm.omdb_api_key = false) :
    add_movie dm provider title uid db
      = add_movie dm
          (ProviderResult.response ⟨some ("False"), none, none, none, none⟩)
          title uid db ∧
    (add_movie dm provider title uid db).1
      = { id := db.nextMovieId, title := title, year := none, genre := none,
          rating := none, user_id := uid } ∧
    (add_movie dm provider title uid db).2.movies
      = db.movies ++ [(add_movie dm provider title uid db).1] := by
  have h1 : fetch_movie_data dm provider = none := by
    simp [fetch_movie_data, hkey]
  have h2 : fetch_movie_data dm
      (ProviderResult.response ⟨some ("False"), none, none, none, none⟩)
        = none := by
    simp [fetch_movie_data, hkey]
  refine ⟨?_, ?_, rfl⟩ <;> simp [add_movie, h1, h2]

/-- Witness for C8 at a concrete input: unset api key, a provider that would
have answered, title Heat. -/
theorem addMovie_no_key_behaves_as_not_found_witness :
    add_movie ⟨none⟩
        (ProviderResult.response
          ⟨some ("True"), some ("Heat"), some ("1995"), some ("8.3"),
           some ("Crime")⟩)
        ("Heat") 1 ⟨[⟨1, ("Ada")⟩], [], 1⟩
      = add_movie ⟨none⟩
          (ProviderResult.response ⟨some ("False"), none, none, none, none⟩)
          ("Heat") 1 ⟨[⟨1, ("Ada")⟩], [], 1⟩ ∧
    (add_movie ⟨none⟩
        (ProviderResult.response
          ⟨some ("True"), some ("Heat"), some ("1995"), some ("8.3"),
           some ("Crime")⟩)
        ("Heat") 1 ⟨[⟨1, ("Ada")⟩], [], 1⟩).1
      = ⟨1, ("Heat"), none, none, none, 1⟩ :=
  ⟨(addMovie_no_key_behaves_as_not_found ⟨none⟩
      (ProviderResult.response
        ⟨some ("True"), some ("Heat"), some ("1995"), some ("8.3"),
         some ("Crime")⟩)
      ("Heat") 1 ⟨[⟨1, ("Ada")⟩], [], 1⟩ rfl).1,
   (addMovie_no_key_behaves_as_not_found ⟨none⟩
      (ProviderResult.response
        ⟨some ("True"), some ("Heat"), some ("1995"), some ("8.3"),
         some ("Crime")⟩)
      ("Heat") 1 ⟨[⟨1, ("Ada")⟩], [], 1⟩ rfl).2.1⟩

/-- Claim C10: for every existing movie id and new title, update_movie
rewrites only the title attribute of the targeted row -- its id, year, genre,
rating and owner reference are kept -- while every movie row before and after
it and every user row is unchanged. -/
theorem updateMovie_frame
    (db : DB) (mid : Nat) (t : String) (l₁ l₂ : List MovieRec) (m : MovieRec)
    (hsplit : db.movies = l₁ ++ m :: l₂)
    (hm : m.id = mid)
    (h₁ : ∀ x ∈ l₁, x.id ≠ mid) :
    update_movie mid t db
      = (some { m with title := t },
         { db with movies := l₁ ++ { m with title := t } :: l₂ }) := by
  have hget : getById db.movies mid = some m := by
    rw [hsplit]; exact getById_append l₁ l₂ m mid h₁ hm
  have hset : setTitleFirst db.movies mid t = l₁ ++ { m with title := t } :: l₂ := by
    rw [hsplit]; exact setTitleFirst_append l₁ l₂ m mid t h₁ hm
  simp [update_movie, hget, hset]

/-- Witness for C10 at a concrete input: three movies with ids 1, 2, 3, the
one with id 2 enriched; retitling id 2 keeps its year, genre, rating and
owner and every other record. -/
theorem updateMovie_frame_witness :
    update_movie 2 ("Brassed Off")
        ⟨[⟨1, ("Ada")⟩],
         [⟨1, ("Alien"), none, none, none, 1⟩,
          ⟨2, ("Brazil"), some 1985, some ("Sci-Fi"), none, 1⟩,
          ⟨3, ("Contact"), none, none, none, 1⟩], 4⟩
      = (some ⟨2, ("Brassed Off"), some 1985, some ("Sci-Fi"), none, 1⟩,
         ⟨[⟨1, ("Ada")⟩],
          [⟨1, ("Alien"), none, none, none, 1⟩,
           ⟨2, ("Brassed Off"), some 1985, some ("Sci-Fi"), none, 1⟩,
           ⟨3, ("Contact"), none, none, none, 1⟩], 4⟩) :=
  updateMovie_frame
    ⟨[⟨1, ("Ada")⟩],
     [⟨1, ("Alien"), none, none, none, 1⟩,
      ⟨2, ("Brazil"), some 1985, some ("Sci-Fi"), none, 1⟩,
      ⟨3, ("Contact"), none, none, none, 1⟩], 4⟩
    2 ("Brassed Off")
    [⟨1, ("Alien"), none, none, none, 1⟩]
    [⟨3, ("Contact"), none, none, none, 1⟩]
    ⟨2, ("Brazil"), some 1985, some ("Sci-Fi"), none, 1⟩
    rfl rfl (by decide)
